import Mathlib

/-!
Verification development for the Nightlume frame-pacing subsystem.

This file gives a shallow embedding of the queue-management and overload-
relaxation logic of `app/streaming/video/ffmpeg-renderers/pacer/pacer.cpp`
and of the texture-dimension rounding done in
`app/streaming/video/ffmpeg-renderers/d3d12va.cpp`, and proves the testable
properties stated for those components.

Modelling conventions:
- An `AVFrame*` is modelled as an opaque identifier (`Frame := Nat`).
- A `QQueue<T>` is a `List T` whose head is the queue front (dequeue takes
  the head, enqueue appends at the tail).
- C++ `int` counters are modelled as `Nat` (all counters in the source only
  ever increase by one, are reset to zero, or count down from small
  constants, and are compared against small positive constants, so no
  overflow or negative value is reachable); the decoder backlog argument,
  which arrives from outside, is kept as `Int`.
- The fields `m_VsyncSource != nullptr` and
  `m_RendererAttributes & RENDERER_ATTRIBUTE_NO_BUFFERING` are booleans
  fixed at initialization.
- The ghost fields `pacingArrivals`, `renderArrivals` and `freedFrames`
  record, for specification purposes only, every frame ever enqueued onto
  each queue and every frame passed to `av_frame_free`; they are
  write-only and influence no behaviour.
-/

set_option maxRecDepth 10000

/-- A decoded video frame, identified opaquely. -/
abbrev Frame := Nat

-- Constants from pacer.cpp (lines 20-46).
def MAX_QUEUED_FRAMES_BALANCED : Nat := 3
def MAX_QUEUED_FRAMES_LOW_LATENCY : Nat := 2
def MAX_QUEUED_FRAMES_ULTRA_LOW : Nat := 1
def OVERLOAD_RELAX_OVERFLOW_THRESHOLD : Nat := 24
def OVERLOAD_RELAX_DURATION_FRAMES : Nat := 180
def OVERLOAD_HEALTHY_RESET_FRAMES : Nat := 120
def DECODER_BACKLOG_RELAX_THRESHOLD : Int := 10
def DECODER_BACKLOG_RELAX_STREAK : Nat := 8
def ULTRA_LOW_RELAX_OVERFLOW_THRESHOLD : Nat := 8
def ULTRA_LOW_RELAX_DURATION_FRAMES : Nat := 300
def TIMER_SLACK_MS : Nat := 3

/-- `StreamingPreferences::FramePacingMode` (the three modes the Pacer
constructor distinguishes). -/
inductive FramePacingMode where
  | balanced
  | lowLatency
  | ultraLow
deriving DecidableEq, Repr

/-- The `switch (pacingMode)` in the Pacer constructor (pacer.cpp lines 65-76). -/
def maxQueuedFramesForMode : FramePacingMode → Nat
  | FramePacingMode.lowLatency => MAX_QUEUED_FRAMES_LOW_LATENCY
  | FramePacingMode.ultraLow => MAX_QUEUED_FRAMES_ULTRA_LOW
  | FramePacingMode.balanced => MAX_QUEUED_FRAMES_BALANCED

/-- The mutable state of a `Pacer` object that the queue-management logic
touches, plus the write-only ghost history fields. -/
structure PacerState where
  framePacingMode : FramePacingMode
  /-- `m_VsyncSource != nullptr` after `initialize()`. -/
  vsyncSource : Bool
  /-- `m_RendererAttributes & RENDERER_ATTRIBUTE_NO_BUFFERING`. -/
  noBuffering : Bool
  maxVideoFps : Nat
  displayFps : Nat
  maxQueuedFrames : Nat
  pacingQueue : List Frame
  renderQueue : List Frame
  pacingQueueHistory : List Nat
  renderQueueHistory : List Nat
  enqueueOverflowStreak : Nat
  enqueueHealthyStreak : Nat
  overloadRelaxationActive : Bool
  overloadRelaxationFramesRemaining : Nat
  decoderBacklogStreak : Nat
  /-- `m_VideoStats->pacerDroppedFrames`. -/
  pacerDroppedFrames : Nat
  /-- `m_VideoStats->renderedFrames`. -/
  renderedFrames : Nat
  deferredFreeFrame : Option Frame
  /-- Ghost: every frame ever enqueued onto the pacing queue, in order. -/
  pacingArrivals : List Frame
  /-- Ghost: every frame ever enqueued onto the render queue, in order. -/
  renderArrivals : List Frame
  /-- Ghost: every frame ever passed to `av_frame_free`, in order. -/
  freedFrames : List Frame
deriving DecidableEq, Repr

/-- The Pacer constructor (pacer.cpp lines 48-77) followed by the
field assignments of `initialize()` (lines 336-340): all counters zero,
queues and histories empty, no deferred-free frame. -/
def mkPacer (mode : FramePacingMode) (vsyncSource : Bool)
    (maxVideoFps displayFps : Nat) (noBuffering : Bool) : PacerState :=
  { framePacingMode := mode
    vsyncSource := vsyncSource
    noBuffering := noBuffering
    maxVideoFps := maxVideoFps
    displayFps := displayFps
    maxQueuedFrames := maxQueuedFramesForMode mode
    pacingQueue := []
    renderQueue := []
    pacingQueueHistory := []
    renderQueueHistory := []
    enqueueOverflowStreak := 0
    enqueueHealthyStreak := 0
    overloadRelaxationActive := false
    overloadRelaxationFramesRemaining := 0
    decoderBacklogStreak := 0
    pacerDroppedFrames := 0
    renderedFrames := 0
    deferredFreeFrame := none
    pacingArrivals := []
    renderArrivals := []
    freedFrames := [] }

/-- The effective queue capacity computed at the top of
`Pacer::dropFrameForEnqueue` (pacer.cpp lines 470-479): the base
`m_MaxQueuedFrames`, or `SDL_min(MAX_QUEUED_FRAMES_BALANCED,
m_MaxQueuedFrames + 1)` while overload relaxation is active in a
non-balanced mode. -/
def effectiveMaxQueuedFrames (s : PacerState) : Nat :=
  if s.overloadRelaxationActive = true ∧ s.framePacingMode ≠ FramePacingMode.balanced then
    min MAX_QUEUED_FRAMES_BALANCED (s.maxQueuedFrames + 1)
  else
    s.maxQueuedFrames

/-- The `while (queue.size() >= effectiveMaxQueuedFrames)` drop loop of
`Pacer::dropFrameForEnqueue` (pacer.cpp lines 497-505): repeatedly
dequeue and free the front (oldest) frame while the queue is at or above
capacity.  Returns (frames dropped, in order; remaining queue). -/
def dropOverflowLoop (effectiveMax : Nat) : List Frame → List Frame × List Frame
  | [] => ([], [])
  | f :: rest =>
    if effectiveMax ≤ (f :: rest).length then
      let r := dropOverflowLoop effectiveMax rest
      (f :: r.1, r.2)
    else
      ([], f :: rest)

/-- `Pacer::dropFrameForEnqueue` (pacer.cpp lines 468-513).  The queue is
passed by reference in the source; here it is taken and returned
alongside the updated state (whose own queue fields are untouched). -/
def dropFrameForEnqueue (s : PacerState) (queue : List Frame) :
    PacerState × List Frame :=
  let ultraLowMode := s.framePacingMode = FramePacingMode.ultraLow
  let relaxOverflowThreshold :=
    if ultraLowMode then ULTRA_LOW_RELAX_OVERFLOW_THRESHOLD
    else OVERLOAD_RELAX_OVERFLOW_THRESHOLD
  let relaxDurationFrames :=
    if ultraLowMode then ULTRA_LOW_RELAX_DURATION_FRAMES
    else OVERLOAD_RELAX_DURATION_FRAMES
  let effMax := effectiveMaxQueuedFrames s
  if effMax ≤ queue.length then
    -- Overflow path: bump the overflow streak, possibly arm relaxation,
    -- then drop from the front until below capacity.
    let s1 := { s with enqueueOverflowStreak := s.enqueueOverflowStreak + 1
                       enqueueHealthyStreak := 0 }
    let s2 :=
      if s1.overloadRelaxationActive = false ∧
          s1.framePacingMode ≠ FramePacingMode.balanced ∧
          relaxOverflowThreshold ≤ s1.enqueueOverflowStreak then
        { s1 with overloadRelaxationActive := true
                  overloadRelaxationFramesRemaining := relaxDurationFrames }
      else s1
    let r := dropOverflowLoop effMax queue
    ({ s2 with pacerDroppedFrames := s2.pacerDroppedFrames + r.1.length
               freedFrames := s2.freedFrames ++ r.1 }, r.2)
  else
    -- Healthy path: bump the healthy streak and, past the reset
    -- threshold, clear the overflow streak.
    let s1 := { s with enqueueHealthyStreak := s.enqueueHealthyStreak + 1 }
    if OVERLOAD_HEALTHY_RESET_FRAMES ≤ s1.enqueueHealthyStreak then
      ({ s1 with enqueueOverflowStreak := 0 }, queue)
    else
      (s1, queue)

/-- `Pacer::enqueueFrameForRenderingAndUnlock` (pacer.cpp lines 249-267):
apply the drop policy to the render queue, then enqueue the frame (the
lock/wake machinery has no state in the model). -/
def enqueueFrameForRenderingAndUnlock (s : PacerState) (frame : Frame) : PacerState :=
  let r := dropFrameForEnqueue s s.renderQueue
  { r.1 with renderQueue := r.2 ++ [frame]
             renderArrivals := r.1.renderArrivals ++ [frame] }

/-- The overload-relaxation expiry block at the top of `Pacer::submitFrame`
(pacer.cpp lines 523-536): while relaxation is active, each submission
counts the duration down, and at zero relaxation deactivates and both
enqueue streak counters reset. -/
def relaxationTick (s : PacerState) : PacerState :=
  if s.overloadRelaxationActive = true then
    let s1 :=
      if 0 < s.overloadRelaxationFramesRemaining then
        { s with overloadRelaxationFramesRemaining :=
                   s.overloadRelaxationFramesRemaining - 1 }
      else s
    if s1.overloadRelaxationFramesRemaining = 0 then
      { s1 with overloadRelaxationActive := false
                enqueueOverflowStreak := 0
                enqueueHealthyStreak := 0 }
    else s1
  else s

/-- `Pacer::submitFrame` (pacer.cpp lines 515-546). -/
def submitFrame (s : PacerState) (frame : Frame) : PacerState :=
  if s.vsyncSource then
    let s1 := relaxationTick s
    let r := dropFrameForEnqueue s1 s1.pacingQueue
    { r.1 with pacingQueue := r.2 ++ [frame]
               pacingArrivals := r.1.pacingArrivals ++ [frame] }
  else
    enqueueFrameForRenderingAndUnlock s frame

/-- `Pacer::notifyDecoderBacklog` (pacer.cpp lines 79-105). -/
def notifyDecoderBacklog (s : PacerState) (backlogFrames : Int) : PacerState :=
  if s.framePacingMode = FramePacingMode.balanced then
    s
  else
    let s1 :=
      if DECODER_BACKLOG_RELAX_THRESHOLD ≤ backlogFrames then
        { s with decoderBacklogStreak := s.decoderBacklogStreak + 1 }
      else
        { s with decoderBacklogStreak := 0 }
    if s1.overloadRelaxationActive = false ∧
        DECODER_BACKLOG_RELAX_STREAK ≤ s1.decoderBacklogStreak then
      { s1 with overloadRelaxationActive := true
                overloadRelaxationFramesRemaining :=
                  max s1.overloadRelaxationFramesRemaining
                      OVERLOAD_RELAX_DURATION_FRAMES
                decoderBacklogStreak := 0 }
    else s1

/-- The timeout passed to `m_PacingQueueNotEmpty.wait` in
`Pacer::handleVsync` (pacer.cpp line 320):
`SDL_max(timeUntilNextVsyncMillis, TIMER_SLACK_MS) - TIMER_SLACK_MS`. -/
def vsyncWaitBudgetMs (timeUntilNextVsyncMillis : Nat) : Nat :=
  max timeUntilNextVsyncMillis TIMER_SLACK_MS - TIMER_SLACK_MS

/-- The `while (queue.count() > frameDropTarget)` catch-up loops of
`Pacer::handleVsync` (pacer.cpp lines 304-316) and `Pacer::renderFrame`
(lines 455-463): drop the front (oldest) frame while the queue is
strictly longer than the target.  Returns (frames dropped, in order;
remaining queue). -/
def catchUpLoop (frameDropTarget : Nat) : List Frame → List Frame × List Frame
  | [] => ([], [])
  | f :: rest =>
    if frameDropTarget < (f :: rest).length then
      let r := catchUpLoop frameDropTarget rest
      (f :: r.1, r.2)
    else
      ([], f :: rest)

/-- The `frameDropTarget` heuristic of `Pacer::handleVsync` (pacer.cpp
lines 280-293): normally 1; when the video frame rate may exceed the
display rate and any entry of the (pre-tick) pacing-queue history window
is at most 1, be lenient and use 3. -/
def vsyncFrameDropTarget (s : PacerState) : Nat :=
  if s.displayFps ≤ s.maxVideoFps ∧ ∃ e ∈ s.pacingQueueHistory, e ≤ 1 then 3
  else 1

/-- The rolling-window history update of `Pacer::handleVsync` (pacer.cpp
lines 295-301): when the video frame rate may exceed the display rate,
evict the oldest sample once the 500 ms window is full and push the
current pacing-queue depth. -/
def vsyncHistoryPush (s : PacerState) : PacerState :=
  if s.displayFps ≤ s.maxVideoFps then
    let hist :=
      if s.pacingQueueHistory.length = s.displayFps / 2 then
        s.pacingQueueHistory.drop 1
      else s.pacingQueueHistory
    { s with pacingQueueHistory := hist ++ [s.pacingQueue.length] }
  else s

/-- The catch-up drop loop of `Pacer::handleVsync` (pacer.cpp lines
304-316): drop (and free) from the front of the pacing queue while it is
longer than the target, counting each drop. -/
def vsyncCatchUp (frameDropTarget : Nat) (s : PacerState) : PacerState :=
  let r := catchUpLoop frameDropTarget s.pacingQueue
  { s with pacingQueue := r.2
           pacerDroppedFrames := s.pacerDroppedFrames + r.1.length
           freedFrames := s.freedFrames ++ r.1 }

/-- `Pacer::handleVsync` (pacer.cpp lines 271-334), composed from the
pieces above in source order (the drop target is computed from the
history as it stood before this tick's sample is pushed).

The condition-variable wait is modelled by the `arrival` oracle: when the
pacing queue is empty after catch-up, `arrival = none` means the timed
wait expired with no frame (the call returns without releasing anything),
and `arrival = some f` means a concurrent `submitFrame` signalled the
condition during the wait, leaving `f` at the front of the
previously-empty queue, which this call then immediately dequeues.  The
second component of the result is the timeout that was passed to the wait
(`none` when no wait happened). -/
def handleVsync (s : PacerState) (timeUntilNextVsyncMillis : Nat)
    (arrival : Option Frame) : PacerState × Option Nat :=
  let s1 := vsyncCatchUp (vsyncFrameDropTarget s) (vsyncHistoryPush s)
  match s1.pacingQueue, arrival with
  | [], none =>
    -- Wait timed out (lines 320-324): return without releasing a frame.
    (s1, some (vsyncWaitBudgetMs timeUntilNextVsyncMillis))
  | [], some f =>
    -- A concurrent submitFrame enqueued f during the wait; the dequeue at
    -- line 333 takes it straight off the queue, which returns to [].
    (enqueueFrameForRenderingAndUnlock
      { s1 with pacingArrivals := s1.pacingArrivals ++ [f] } f,
     some (vsyncWaitBudgetMs timeUntilNextVsyncMillis))
  | g :: rest, _ =>
    -- Queue non-empty: dequeue the oldest frame and transfer it to the
    -- render queue (line 333).
    (enqueueFrameForRenderingAndUnlock { s1 with pacingQueue := rest } g, none)

/-- The deferred-free swap of `Pacer::renderFrame` (pacer.cpp lines
419-423): `std::swap(frame, m_DeferredFreeFrame); av_frame_free(&frame)`.
The just-rendered frame is retained in the slot; whatever was in the slot
before is freed (`av_frame_free` on a null pointer is a no-op). -/
def deferredFreeStep (s : PacerState) (frame : Frame) : PacerState :=
  { s with deferredFreeFrame := some frame
           freedFrames := s.freedFrames ++ s.deferredFreeFrame.toList }

/-- The render-queue catch-up of `Pacer::renderFrame` (pacer.cpp lines
425-465), with its own history window and leniency rule. -/
def renderQueueCatchUp (s : PacerState) : PacerState :=
  let frameDropTarget : Nat :=
    if s.noBuffering then 1
    else if ∃ e ∈ s.renderQueueHistory, e = 0 then 2
    else 0
  let s :=
    if s.noBuffering then s
    else
      let hist :=
        if s.renderQueueHistory.length = s.maxVideoFps / 2 then
          s.renderQueueHistory.drop 1
        else s.renderQueueHistory
      { s with renderQueueHistory := hist ++ [s.renderQueue.length] }
  let r := catchUpLoop frameDropTarget s.renderQueue
  { s with renderQueue := r.2
           pacerDroppedFrames := s.pacerDroppedFrames + r.1.length
           freedFrames := s.freedFrames ++ r.1 }

/-- `Pacer::renderFrame` (pacer.cpp lines 406-466).  The wall-clock timing
statistics are not modelled; the rendered-frame count is. -/
def renderFrame (s : PacerState) (frame : Frame) : PacerState :=
  renderQueueCatchUp
    (deferredFreeStep { s with renderedFrames := s.renderedFrames + 1 } frame)

/-- One iteration of the render-thread loop body (pacer.cpp lines
217-240): if the render queue is empty the thread blocks on the
condition variable (no state change); otherwise it dequeues the front
frame and renders it. -/
def renderThreadStep (s : PacerState) : PacerState :=
  match s.renderQueue with
  | [] => s
  | f :: rest => renderFrame { s with renderQueue := rest } f

/-- The externally-driven events that mutate the Pacer state. -/
inductive PacerOp where
  | submit (frame : Frame)
  | notifyBacklog (backlogFrames : Int)
  | vsyncTick (timeUntilNextVsyncMillis : Nat) (arrival : Option Frame)
  | renderStep
deriving Repr

def pacerStep (s : PacerState) : PacerOp → PacerState
  | PacerOp.submit f => submitFrame s f
  | PacerOp.notifyBacklog d => notifyDecoderBacklog s d
  | PacerOp.vsyncTick t a => (handleVsync s t a).1
  | PacerOp.renderStep => renderThreadStep s

/-- Run a sequence of Pacer events from a given state. -/
def runPacer (s : PacerState) (ops : List PacerOp) : PacerState :=
  ops.foldl pacerStep s

/-- A sequence of `submitFrame` calls. -/
def submitMany (s : PacerState) (frames : List Frame) : PacerState :=
  frames.foldl submitFrame s

/-- `n` consecutive `submitFrame` calls with distinct frames `0..n-1`. -/
def submitN (s : PacerState) (n : Nat) : PacerState :=
  submitMany s (List.range n)

/-- A sequence of `notifyDecoderBacklog` calls. -/
def notifyMany (s : PacerState) (depths : List Int) : PacerState :=
  depths.foldl notifyDecoderBacklog s

-- ### Texture-dimension rounding (d3d12va.cpp, D3D12VARenderer::initialize)

/-- `FFALIGN(x, a)`: round `x` up to the next multiple of the (power of
two) alignment `a`.  The source computes `(x + a - 1) & ~(a - 1)`; for a
power of two `a` and non-negative `x` that bitmask form equals clearing
the remainder, i.e. `(x + a - 1) - (x + a - 1) % a`. -/
def ffalign (x a : Nat) : Nat := (x + a - 1) - (x + a - 1) % a

/-- The texture dimensions computed by `D3D12VARenderer::initialize`
(d3d12va.cpp lines 1668-1677). -/
structure D3D12TextureDims where
  textureWidth : Nat
  textureHeight : Nat
  textureAlignment : Nat
  frameWidth : Nat
  frameHeight : Nat
deriving DecidableEq, Repr

/-- d3d12va.cpp lines 1668-1677: the decode texture dimensions are rounded
up to even (`(w + 1) & ~1`, which for non-negative `w` equals
`(w + 1) - (w + 1) % 2`), and the frame texture dimensions are further
aligned to 16 pixels when `videoFormat & VIDEO_FORMAT_MASK_H264` is set
(`isH264`) and to 128 pixels otherwise. -/
def d3d12InitTextureDims (width height : Nat) (isH264 : Bool) : D3D12TextureDims :=
  let textureWidth := (width + 1) - (width + 1) % 2
  let textureHeight := (height + 1) - (height + 1) % 2
  let textureAlignment := if isH264 then 16 else 128
  { textureWidth := textureWidth
    textureHeight := textureHeight
    textureAlignment := textureAlignment
    frameWidth := ffalign textureWidth textureAlignment
    frameHeight := ffalign textureHeight textureAlignment }

-- ### Structural lemmas about the drop loops

theorem dropOverflowLoop_append (m : Nat) (q : List Frame) :
    (dropOverflowLoop m q).1 ++ (dropOverflowLoop m q).2 = q := by
  induction q with
  | nil => simp [dropOverflowLoop]
  | cons f rest ih =>
    simp only [dropOverflowLoop]
    split
    · simpa using ih
    · simp

theorem dropOverflowLoop_length_lt (m : Nat) (q : List Frame) (hm : 1 ≤ m) :
    (dropOverflowLoop m q).2.length < m := by
  induction q with
  | nil => simpa [dropOverflowLoop] using hm
  | cons f rest ih =>
    simp only [dropOverflowLoop]
    split
    · simpa using ih
    · next h =>
      simp only [List.length_cons] at h ⊢
      omega

theorem catchUpLoop_append (t : Nat) (q : List Frame) :
    (catchUpLoop t q).1 ++ (catchUpLoop t q).2 = q := by
  induction q with
  | nil => simp [catchUpLoop]
  | cons f rest ih =>
    simp only [catchUpLoop]
    split
    · simpa using ih
    · simp

theorem catchUpLoop_length_le (t : Nat) (q : List Frame) :
    (catchUpLoop t q).2.length ≤ t := by
  induction q with
  | nil => simp [catchUpLoop]
  | cons f rest ih =>
    simp only [catchUpLoop]
    split
    · simpa using ih
    · next h =>
      simp only [List.length_cons] at h ⊢
      omega

-- ### Field-preservation lemmas

theorem dropFrameForEnqueue_preserves (s : PacerState) (q : List Frame) :
    (dropFrameForEnqueue s q).1.framePacingMode = s.framePacingMode
  ∧ (dropFrameForEnqueue s q).1.vsyncSource = s.vsyncSource
  ∧ (dropFrameForEnqueue s q).1.noBuffering = s.noBuffering
  ∧ (dropFrameForEnqueue s q).1.maxVideoFps = s.maxVideoFps
  ∧ (dropFrameForEnqueue s q).1.displayFps = s.displayFps
  ∧ (dropFrameForEnqueue s q).1.maxQueuedFrames = s.maxQueuedFrames
  ∧ (dropFrameForEnqueue s q).1.pacingQueue = s.pacingQueue
  ∧ (dropFrameForEnqueue s q).1.renderQueue = s.renderQueue
  ∧ (dropFrameForEnqueue s q).1.pacingQueueHistory = s.pacingQueueHistory
  ∧ (dropFrameForEnqueue s q).1.renderQueueHistory = s.renderQueueHistory
  ∧ (dropFrameForEnqueue s q).1.decoderBacklogStreak = s.decoderBacklogStreak
  ∧ (dropFrameForEnqueue s q).1.deferredFreeFrame = s.deferredFreeFrame
  ∧ (dropFrameForEnqueue s q).1.pacingArrivals = s.pacingArrivals
  ∧ (dropFrameForEnqueue s q).1.renderArrivals = s.renderArrivals
  ∧ (dropFrameForEnqueue s q).1.renderedFrames = s.renderedFrames := by
  simp only [dropFrameForEnqueue]
  repeat' split
  all_goals simp

theorem dropFrameForEnqueue_kept (s : PacerState) (q : List Frame) :
    ∃ d, d ++ (dropFrameForEnqueue s q).2 = q := by
  simp only [dropFrameForEnqueue]
  split
  · exact ⟨(dropOverflowLoop (effectiveMaxQueuedFrames s) q).1,
      dropOverflowLoop_append _ _⟩
  · split <;> exact ⟨[], rfl⟩

theorem dropFrameForEnqueue_len (s : PacerState) (q : List Frame)
    (h : 1 ≤ effectiveMaxQueuedFrames s) :
    (dropFrameForEnqueue s q).2.length < effectiveMaxQueuedFrames s := by
  simp only [dropFrameForEnqueue]
  split
  · exact dropOverflowLoop_length_lt _ _ h
  · next hq => split <;> (simp only []; omega)

/-- `dropFrameForEnqueue` never turns relaxation off, and while relaxation
is already active it changes neither the active flag nor the remaining
duration. -/
theorem dropFrameForEnqueue_active (s : PacerState) (q : List Frame)
    (h : s.overloadRelaxationActive = true) :
    (dropFrameForEnqueue s q).1.overloadRelaxationActive = true
  ∧ (dropFrameForEnqueue s q).1.overloadRelaxationFramesRemaining
      = s.overloadRelaxationFramesRemaining := by
  simp only [dropFrameForEnqueue]
  repeat' split
  all_goals simp_all

/-- The effective capacity never shrinks across `dropFrameForEnqueue`
(activation can only raise it, given the capacity bound every reachable
state keeps). -/
theorem effectiveMax_le_dropFrameForEnqueue (s : PacerState) (q : List Frame)
    (h3 : s.maxQueuedFrames ≤ MAX_QUEUED_FRAMES_BALANCED) :
    effectiveMaxQueuedFrames s ≤ effectiveMaxQueuedFrames (dropFrameForEnqueue s q).1 := by
  have hpres := dropFrameForEnqueue_preserves s q
  have hmode := hpres.1
  have hmax := hpres.2.2.2.2.2.1
  by_cases ha : s.overloadRelaxationActive = true
  · have hact := (dropFrameForEnqueue_active s q ha).1
    simp [effectiveMaxQueuedFrames, hact, ha, hmode, hmax]
  · have hs : effectiveMaxQueuedFrames s = s.maxQueuedFrames := by
      simp [effectiveMaxQueuedFrames, ha]
    rw [hs]
    simp only [effectiveMaxQueuedFrames, hmode, hmax]
    split
    · simp only [MAX_QUEUED_FRAMES_BALANCED] at h3 ⊢
      omega
    · exact Nat.le_refl _

theorem relaxationTick_preserves (s : PacerState) :
    (relaxationTick s).framePacingMode = s.framePacingMode
  ∧ (relaxationTick s).vsyncSource = s.vsyncSource
  ∧ (relaxationTick s).maxQueuedFrames = s.maxQueuedFrames
  ∧ (relaxationTick s).pacingQueue = s.pacingQueue
  ∧ (relaxationTick s).renderQueue = s.renderQueue
  ∧ (relaxationTick s).pacingArrivals = s.pacingArrivals
  ∧ (relaxationTick s).renderArrivals = s.renderArrivals := by
  simp only [relaxationTick]
  repeat' split
  all_goals simp

theorem one_le_effectiveMax (s : PacerState) (h1 : 1 ≤ s.maxQueuedFrames) :
    1 ≤ effectiveMaxQueuedFrames s := by
  simp only [effectiveMaxQueuedFrames]
  split
  · simp only [MAX_QUEUED_FRAMES_BALANCED]
    omega
  · exact h1

theorem submitFrame_preserves (s : PacerState) (f : Frame) :
    (submitFrame s f).framePacingMode = s.framePacingMode
  ∧ (submitFrame s f).vsyncSource = s.vsyncSource
  ∧ (submitFrame s f).maxQueuedFrames = s.maxQueuedFrames := by
  simp only [submitFrame, enqueueFrameForRenderingAndUnlock]
  split
  · obtain ⟨hm1, hv1, hq1, _, _, _, _⟩ := relaxationTick_preserves s
    obtain ⟨hm2, hv2, _, _, _, hq2, _⟩ :=
      dropFrameForEnqueue_preserves (relaxationTick s) (relaxationTick s).pacingQueue
    exact ⟨by simp [hm2, hm1], by simp [hv2, hv1], by simp [hq2, hq1]⟩
  · obtain ⟨hm2, hv2, _, _, _, hq2, _⟩ := dropFrameForEnqueue_preserves s s.renderQueue
    exact ⟨by simp [hm2], by simp [hv2], by simp [hq2]⟩

/-- One `submitFrame` call keeps the pacing queue within the effective
capacity of the post-call state. -/
theorem submitFrame_pacing_bound (s : PacerState) (f : Frame)
    (h1 : 1 ≤ s.maxQueuedFrames)
    (h3 : s.maxQueuedFrames ≤ MAX_QUEUED_FRAMES_BALANCED)
    (hinv : s.pacingQueue.length ≤ effectiveMaxQueuedFrames s) :
    (submitFrame s f).pacingQueue.length
      ≤ effectiveMaxQueuedFrames (submitFrame s f) := by
  simp only [submitFrame, enqueueFrameForRenderingAndUnlock]
  split
  · -- vsync branch: the drop policy leaves the queue strictly below the
    -- capacity in force during the call, and activation may only raise it.
    obtain ⟨hm1, _, hq1, _, _, _, _⟩ := relaxationTick_preserves s
    have h1' : 1 ≤ (relaxationTick s).maxQueuedFrames := by rw [hq1]; exact h1
    have h3' : (relaxationTick s).maxQueuedFrames ≤ MAX_QUEUED_FRAMES_BALANCED := by
      rw [hq1]; exact h3
    have hlen := dropFrameForEnqueue_len (relaxationTick s) (relaxationTick s).pacingQueue
      (one_le_effectiveMax _ h1')
    have hmono := effectiveMax_le_dropFrameForEnqueue (relaxationTick s)
      (relaxationTick s).pacingQueue h3'
    have hrec : effectiveMaxQueuedFrames
        { (dropFrameForEnqueue (relaxationTick s) (relaxationTick s).pacingQueue).1 with
            pacingQueue :=
              (dropFrameForEnqueue (relaxationTick s) (relaxationTick s).pacingQueue).2 ++ [f]
            pacingArrivals :=
              (dropFrameForEnqueue (relaxationTick s)
                (relaxationTick s).pacingQueue).1.pacingArrivals ++ [f] }
      = effectiveMaxQueuedFrames
          (dropFrameForEnqueue (relaxationTick s) (relaxationTick s).pacingQueue).1 := rfl
    simp only [hrec, List.length_append, List.length_cons, List.length_nil]
    omega
  · -- no-vsync branch: the pacing queue is untouched and the capacity can
    -- only grow.
    obtain ⟨_, _, _, _, _, _, hpq, _⟩ := dropFrameForEnqueue_preserves s s.renderQueue
    have hmono := effectiveMax_le_dropFrameForEnqueue s s.renderQueue h3
    have hrec : effectiveMaxQueuedFrames
        { (dropFrameForEnqueue s s.renderQueue).1 with
            renderQueue := (dropFrameForEnqueue s s.renderQueue).2 ++ [f]
            renderArrivals := (dropFrameForEnqueue s s.renderQueue).1.renderArrivals ++ [f] }
      = effectiveMaxQueuedFrames (dropFrameForEnqueue s s.renderQueue).1 := rfl
  /- goal: pacingQueue of the updated record, which is the drop call's
     (unchanged) pacingQueue. -/
    simp only [hrec]
    have : ({ (dropFrameForEnqueue s s.renderQueue).1 with
            renderQueue := (dropFrameForEnqueue s s.renderQueue).2 ++ [f]
            renderArrivals := (dropFrameForEnqueue s s.renderQueue).1.renderArrivals ++ [f]
          } : PacerState).pacingQueue = s.pacingQueue := by
      simp [hpq]
    rw [this]
    omega

-- ### Claim C1

/-- Claim C1: for every sequence of `submitFrame` calls, in every pacing
mode and relaxation state, the pacing queue length immediately after any
enqueue never exceeds the currently effective capacity (the mode's
`maxQueuedFrames`, or `min(MAX_QUEUED_FRAMES_BALANCED, maxQueuedFrames+1)`
while overload relaxation is active in a non-balanced mode).  Stated over
an arbitrary start state whose capacity field is in the range the
constructor can produce and whose queue respects the capacity, so it
covers every reachable relaxation state, and by instantiating `frames`
with any prefix it bounds the queue after every single call of the
sequence. -/
theorem C1_pacingQueue_bounded (s : PacerState) (frames : List Frame)
    (h1 : 1 ≤ s.maxQueuedFrames)
    (h3 : s.maxQueuedFrames ≤ MAX_QUEUED_FRAMES_BALANCED)
    (hinv : s.pacingQueue.length ≤ effectiveMaxQueuedFrames s) :
    (submitMany s frames).pacingQueue.length
      ≤ effectiveMaxQueuedFrames (submitMany s frames) := by
  induction frames generalizing s with
  | nil => exact hinv
  | cons f rest ih =>
    have hstep := submitFrame_pacing_bound s f h1 h3 hinv
    obtain ⟨_, _, hq⟩ := submitFrame_preserves s f
    exact ih (submitFrame s f) (hq ▸ h1) (hq ▸ h3) hstep

/-- Witness for C1: the low-latency pacer, fed five frames from the
initial state, satisfies the bound. -/
theorem C1_witness :
    (submitMany (mkPacer FramePacingMode.lowLatency true 60 60 false)
        [0, 1, 2, 3, 4]).pacingQueue.length
      ≤ effectiveMaxQueuedFrames
          (submitMany (mkPacer FramePacingMode.lowLatency true 60 60 false)
            [0, 1, 2, 3, 4]) :=
  C1_pacingQueue_bounded (mkPacer FramePacingMode.lowLatency true 60 60 false)
    [0, 1, 2, 3, 4] (by decide) (by decide) (by decide)

-- ### Claim C10

/-- With no vsync source, `submitFrame` takes the direct-to-render-queue
branch, which contains no relaxation-expiry countdown, and
`dropFrameForEnqueue` can only arm (never disarm) relaxation. -/
theorem submitFrame_noVsync_relaxation (s : PacerState) (f : Frame)
    (hv : s.vsyncSource = false)
    (ha : s.overloadRelaxationActive = true) :
    (submitFrame s f).overloadRelaxationActive = true
  ∧ (submitFrame s f).overloadRelaxationFramesRemaining
      = s.overloadRelaxationFramesRemaining := by
  simp only [submitFrame, hv, Bool.false_eq_true, if_false,
    enqueueFrameForRenderingAndUnlock]
  obtain ⟨hact, hrem⟩ := dropFrameForEnqueue_active s s.renderQueue ha
  exact ⟨by simp [hact], by simp [hrem]⟩

/-- Claim C10: when no vsync source is configured, `submitFrame` never
decrements the overload-relaxation duration counter, so once relaxation
is active it stays active (with an unchanged remaining duration) across
every subsequent submission. -/
theorem C10_noVsync_relaxation_persistent (s : PacerState) (frames : List Frame)
    (hv : s.vsyncSource = false)
    (ha : s.overloadRelaxationActive = true) :
    (submitMany s frames).overloadRelaxationActive = true
  ∧ (submitMany s frames).overloadRelaxationFramesRemaining
      = s.overloadRelaxationFramesRemaining := by
  induction frames generalizing s with
  | nil => exact ⟨ha, rfl⟩
  | cons f rest ih =>
    obtain ⟨hact, hrem⟩ := submitFrame_noVsync_relaxation s f hv ha
    obtain ⟨_, hvs, _⟩ := submitFrame_preserves s f
    obtain ⟨ih1, ih2⟩ := ih (submitFrame s f) (hvs.trans hv) hact
    exact ⟨ih1, ih2.trans hrem⟩

/-- Witness for C10: a pacer without vsync source whose relaxation was
armed (e.g. by decoder-backlog reports) keeps it armed across two more
submissions. -/
theorem C10_witness :
    (submitMany
        { mkPacer FramePacingMode.ultraLow false 60 60 false with
            overloadRelaxationActive := true
            overloadRelaxationFramesRemaining := 180 }
        [0, 1]).overloadRelaxationActive = true
  ∧ (submitMany
        { mkPacer FramePacingMode.ultraLow false 60 60 false with
            overloadRelaxationActive := true
            overloadRelaxationFramesRemaining := 180 }
        [0, 1]).overloadRelaxationFramesRemaining = 180 :=
  C10_noVsync_relaxation_persistent
    { mkPacer FramePacingMode.ultraLow false 60 60 false with
        overloadRelaxationActive := true
        overloadRelaxationFramesRemaining := 180 }
    [0, 1] (by decide) (by decide)

-- ### Claim C2

/-- The low-latency pacer after two accepted submissions: the pacing queue
sits exactly at its base capacity of 2, so every further submission (with
no vsync tick draining the queue) hits the overflow path. -/
def c2Base : PacerState :=
  submitN (mkPacer FramePacingMode.lowLatency true 60 60 false) 2

/-- Claim C2: in low-latency mode (`maxQueuedFrames = 2`) with a vsync
source, under consecutive overflowing submissions relaxation is not yet
active after the 23rd overflowing submission, activates at the 24th with
a duration of 180, is still active 179 submissions after activation, and
is inactive 180 submissions after activation; at the deactivating
submission the relaxation-expiry block (`relaxationTick`, pacer.cpp lines
523-536) clears both streak counters together with the active flag. -/
theorem C2_lowLatency_relaxation_lifecycle :
    (submitN c2Base 23).overloadRelaxationActive = false
  ∧ (submitN c2Base 24).overloadRelaxationActive = true
  ∧ (submitN c2Base 24).overloadRelaxationFramesRemaining
      = OVERLOAD_RELAX_DURATION_FRAMES
  ∧ (submitN c2Base 203).overloadRelaxationActive = true
  ∧ (submitN c2Base 204).overloadRelaxationActive = false
  ∧ (relaxationTick (submitN c2Base 203)).overloadRelaxationActive = false
  ∧ (relaxationTick (submitN c2Base 203)).enqueueOverflowStreak = 0
  ∧ (relaxationTick (submitN c2Base 203)).enqueueHealthyStreak = 0 := by
  decide

-- ### Claim C3

/-- The ultra-low-latency pacer at initialization. -/
def c3Init : PacerState := mkPacer FramePacingMode.ultraLow true 60 60 false

/-- Counterexample to C3 as stated: after a burst of 50 `submitFrame`
calls with no vsync ticks serviced, the pacing queue holds 2 frames (the
relaxed capacity `min(3, 1+1)`) and 48 drops are recorded — not 1 frame
and 49 drops.  Once relaxation activates at the 9th submission, the 10th
submission is accepted without a drop and the queue thereafter oscillates
at the relaxed capacity of 2. -/
theorem C3_counterexample :
    ¬ ((submitN c3Init 50).pacingQueue.length = 1
        ∧ (submitN c3Init 50).pacerDroppedFrames = 49) := by
  decide

/-- Claim C3 (amended): in ultra-low-latency mode (`maxQueuedFrames = 1`)
with pacing enabled and no vsync ticks serviced, after a burst of 50
`submitFrame` calls the pacing queue length is 2 (the relaxed capacity),
exactly 48 dropped frames are recorded, and overload relaxation activates
partway through the burst — at the 9th submission, once the overflow
streak reaches the ultra-low threshold of 8, arming a 300-frame
duration. -/
theorem C3_ultraLow_burst_amended :
    (submitN c3Init 50).pacingQueue.length = 2
  ∧ (submitN c3Init 50).pacerDroppedFrames = 48
  ∧ (submitN c3Init 50).overloadRelaxationActive = true
  ∧ (submitN c3Init 8).overloadRelaxationActive = false
  ∧ (submitN c3Init 9).overloadRelaxationActive = true
  ∧ (submitN c3Init 9).enqueueOverflowStreak = ULTRA_LOW_RELAX_OVERFLOW_THRESHOLD
  ∧ (submitN c3Init 9).overloadRelaxationFramesRemaining
      = ULTRA_LOW_RELAX_DURATION_FRAMES := by
  decide

-- ### Claim C6

/-- A pacer state with a healthy streak of 119 and a nonzero overflow
streak: the next non-overflowing enqueue raises the healthy streak to
exactly the reset threshold (120), which the code already treats as
enough to zero the overflow streak. -/
def c6CounterState : PacerState :=
  { mkPacer FramePacingMode.balanced true 60 60 false with
      enqueueOverflowStreak := 5
      enqueueHealthyStreak := 119 }

/-- Counterexample to C6 as stated: the overflow streak becomes zero on a
non-overflowing enqueue that brings the healthy streak to exactly 120,
which does not *exceed* the reset threshold of 120 — the code resets at
`healthyStreak >= 120`, not `> 120`. -/
theorem C6_counterexample :
    (dropFrameForEnqueue c6CounterState []).1.enqueueOverflowStreak = 0
  ∧ c6CounterState.enqueueOverflowStreak ≠ 0
  ∧ (dropFrameForEnqueue c6CounterState []).1.enqueueHealthyStreak
      = OVERLOAD_HEALTHY_RESET_FRAMES
  ∧ ¬ OVERLOAD_HEALTHY_RESET_FRAMES < OVERLOAD_HEALTHY_RESET_FRAMES := by
  decide

/-- Claim C6 (amended): each overflow-triggering enqueue increments the
overflow streak counter (and zeroes the healthy streak), each
non-overflowing enqueue increments the healthy streak counter, and the
overflow streak is zeroed exactly when the incremented healthy streak
*reaches* (is at least) the reset threshold of 120 frames. -/
theorem C6_streaks_amended (s : PacerState) (q : List Frame) :
    (effectiveMaxQueuedFrames s ≤ q.length →
        (dropFrameForEnqueue s q).1.enqueueOverflowStreak
          = s.enqueueOverflowStreak + 1
      ∧ (dropFrameForEnqueue s q).1.enqueueHealthyStreak = 0)
  ∧ (q.length < effectiveMaxQueuedFrames s →
        (dropFrameForEnqueue s q).1.enqueueHealthyStreak
          = s.enqueueHealthyStreak + 1
      ∧ (dropFrameForEnqueue s q).1.enqueueOverflowStreak
          = (if OVERLOAD_HEALTHY_RESET_FRAMES ≤ s.enqueueHealthyStreak + 1 then 0
             else s.enqueueOverflowStreak)) := by
  constructor
  · intro h
    simp only [dropFrameForEnqueue]
    split
    · repeat' split
      all_goals simp
    · next h2 => exact absurd h h2
  · intro h
    simp only [dropFrameForEnqueue]
    split
    · next h2 => exact absurd h2 (by omega)
    · split <;> simp_all

/-- Witness for C6 (amended), non-overflowing branch at the initial
balanced state: the healthy streak becomes 1. -/
theorem C6_witness :
    (dropFrameForEnqueue (mkPacer FramePacingMode.balanced true 60 60 false)
        []).1.enqueueHealthyStreak
      = (mkPacer FramePacingMode.balanced true 60 60 false).enqueueHealthyStreak + 1 :=
  ((C6_streaks_amended (mkPacer FramePacingMode.balanced true 60 60 false) []).2
    (by decide)).1

-- ### Claim C7

theorem notifyDecoderBacklog_mode (s : PacerState) (d : Int) :
    (notifyDecoderBacklog s d).framePacingMode = s.framePacingMode := by
  simp only [notifyDecoderBacklog]
  repeat' split
  all_goals simp

/-- While relaxation is already active, `notifyDecoderBacklog` neither
disarms it nor changes the remaining duration. -/
theorem notifyDecoderBacklog_active (s : PacerState) (d : Int)
    (h : s.overloadRelaxationActive = true) :
    (notifyDecoderBacklog s d).overloadRelaxationActive = true
  ∧ (notifyDecoderBacklog s d).overloadRelaxationFramesRemaining
      = s.overloadRelaxationFramesRemaining := by
  simp only [notifyDecoderBacklog]
  repeat' split
  all_goals simp_all

theorem notifyMany_active (ds : List Int) (s : PacerState)
    (h : s.overloadRelaxationActive = true) :
    (notifyMany s ds).overloadRelaxationActive = true
  ∧ (notifyMany s ds).overloadRelaxationFramesRemaining
      = s.overloadRelaxationFramesRemaining := by
  induction ds generalizing s with
  | nil => exact ⟨h, rfl⟩
  | cons d rest ih =>
    obtain ⟨h1, h2⟩ := notifyDecoderBacklog_active s d h
    obtain ⟨i1, i2⟩ := ih _ h1
    exact ⟨i1, i2.trans h2⟩

/-- One over-threshold backlog report from an inactive, non-balanced
state either arms relaxation (with at least the generic 180-frame
duration) or leaves it unarmed with the backlog streak incremented and
still below the activation streak. -/
theorem notifyDecoderBacklog_step (s : PacerState) (d : Int)
    (hmode : s.framePacingMode ≠ FramePacingMode.balanced)
    (hd : DECODER_BACKLOG_RELAX_THRESHOLD ≤ d)
    (hinact : s.overloadRelaxationActive = false) :
    ((notifyDecoderBacklog s d).overloadRelaxationActive = true
      ∧ OVERLOAD_RELAX_DURATION_FRAMES
          ≤ (notifyDecoderBacklog s d).overloadRelaxationFramesRemaining)
  ∨ ((notifyDecoderBacklog s d).overloadRelaxationActive = false
      ∧ (notifyDecoderBacklog s d).decoderBacklogStreak
          = s.decoderBacklogStreak + 1
      ∧ s.decoderBacklogStreak + 1 < DECODER_BACKLOG_RELAX_STREAK) := by
  simp only [notifyDecoderBacklog, if_neg hmode, if_pos hd]
  split
  · next hcond =>
    left
    exact ⟨by simp, by simp [le_max_right]⟩
  · next hcond =>
    right
    refine ⟨by simpa using hinact, by simp, ?_⟩
    by_contra hge
    exact hcond ⟨by simpa using hinact, by simpa using Nat.le_of_not_lt (by simpa using hge)⟩

/-- Enough consecutive over-threshold reports from an inactive state arm
relaxation with at least the generic duration. -/
theorem notifyMany_activates (ds : List Int) (s : PacerState)
    (hmode : s.framePacingMode ≠ FramePacingMode.balanced)
    (hds : ∀ d ∈ ds, DECODER_BACKLOG_RELAX_THRESHOLD ≤ d)
    (hinact : s.overloadRelaxationActive = false)
    (hcount : DECODER_BACKLOG_RELAX_STREAK ≤ s.decoderBacklogStreak + ds.length)
    (hlen : 1 ≤ ds.length) :
    (notifyMany s ds).overloadRelaxationActive = true
  ∧ OVERLOAD_RELAX_DURATION_FRAMES
      ≤ (notifyMany s ds).overloadRelaxationFramesRemaining := by
  induction ds generalizing s with
  | nil => exact absurd hlen (by simp)
  | cons d rest ih =>
    have hd : DECODER_BACKLOG_RELAX_THRESHOLD ≤ d := hds d (by simp)
    have hrest : ∀ x ∈ rest, DECODER_BACKLOG_RELAX_THRESHOLD ≤ x :=
      fun x hx => hds x (by simp [hx])
    rcases notifyDecoderBacklog_step s d hmode hd hinact with ⟨ha, hr⟩ | ⟨ha, hstreak, hlt⟩
    · obtain ⟨p1, p2⟩ := notifyMany_active rest (notifyDecoderBacklog s d) ha
      refine ⟨p1, ?_⟩
      show OVERLOAD_RELAX_DURATION_FRAMES
        ≤ (notifyMany (notifyDecoderBacklog s d) rest).overloadRelaxationFramesRemaining
      rw [p2]
      exact hr
    · have hmode' : (notifyDecoderBacklog s d).framePacingMode ≠ FramePacingMode.balanced := by
        rw [notifyDecoderBacklog_mode]; exact hmode
      have hcount' : DECODER_BACKLOG_RELAX_STREAK
          ≤ (notifyDecoderBacklog s d).decoderBacklogStreak + rest.length := by
        rw [hstreak]
        simp only [List.length_cons] at hcount
        omega
      have hlen' : 1 ≤ rest.length := by
        simp only [List.length_cons] at hcount
        omega
      exact ih (notifyDecoderBacklog s d) hmode' hrest ha hcount' hlen'

/-- Claim C7: in any non-balanced pacing mode while relaxation is
inactive, 8 consecutive `notifyDecoderBacklog` reports at or above the
backlog threshold (10 frames) arm overload relaxation with a duration of
at least 180 frames; any report below the threshold resets the backlog
streak to zero; and in balanced mode `notifyDecoderBacklog` changes
nothing at all. -/
theorem C7_decoderBacklog_relaxation :
    (∀ (s : PacerState) (ds : List Int),
        s.framePacingMode ≠ FramePacingMode.balanced →
        s.overloadRelaxationActive = false →
        (∀ d ∈ ds, DECODER_BACKLOG_RELAX_THRESHOLD ≤ d) →
        ds.length = DECODER_BACKLOG_RELAX_STREAK →
        (notifyMany s ds).overloadRelaxationActive = true
      ∧ OVERLOAD_RELAX_DURATION_FRAMES
          ≤ (notifyMany s ds).overloadRelaxationFramesRemaining)
  ∧ (∀ (s : PacerState) (d : Int),
        s.framePacingMode ≠ FramePacingMode.balanced →
        d < DECODER_BACKLOG_RELAX_THRESHOLD →
        (notifyDecoderBacklog s d).decoderBacklogStreak = 0)
  ∧ (∀ (s : PacerState) (d : Int),
        s.framePacingMode = FramePacingMode.balanced →
        notifyDecoderBacklog s d = s) := by
  refine ⟨?_, ?_, ?_⟩
  · intro s ds hmode hinact hds hlen8
    exact notifyMany_activates ds s hmode hds hinact
      (by rw [hlen8]; omega) (by rw [hlen8]; simp [DECODER_BACKLOG_RELAX_STREAK])
  · intro s d hmode hd
    simp only [notifyDecoderBacklog, if_neg hmode, if_neg (by omega : ¬ DECODER_BACKLOG_RELAX_THRESHOLD ≤ d)]
    split
    · simp
    · simp
  · intro s d hmode
    simp [notifyDecoderBacklog, hmode]

/-- Witness for C7: from the ultra-low-latency initial state, eight
reports of a backlog depth of 12 arm relaxation for at least 180 frames;
a report of depth 3 clears the streak; and in balanced mode a report is a
no-op. -/
theorem C7_witness :
    ((notifyMany (mkPacer FramePacingMode.ultraLow true 60 60 false)
          [12, 12, 12, 12, 12, 12, 12, 12]).overloadRelaxationActive = true
      ∧ OVERLOAD_RELAX_DURATION_FRAMES
          ≤ (notifyMany (mkPacer FramePacingMode.ultraLow true 60 60 false)
              [12, 12, 12, 12, 12, 12, 12, 12]).overloadRelaxationFramesRemaining)
  ∧ (notifyDecoderBacklog (mkPacer FramePacingMode.lowLatency true 60 60 false)
        3).decoderBacklogStreak = 0
  ∧ notifyDecoderBacklog (mkPacer FramePacingMode.balanced true 60 60 false) 12
      = mkPacer FramePacingMode.balanced true 60 60 false :=
  ⟨C7_decoderBacklog_relaxation.1 (mkPacer FramePacingMode.ultraLow true 60 60 false)
      [12, 12, 12, 12, 12, 12, 12, 12] (by decide) (by decide)
      (by decide) (by decide),
   C7_decoderBacklog_relaxation.2.1 (mkPacer FramePacingMode.lowLatency true 60 60 false)
      3 (by decide) (by decide),
   C7_decoderBacklog_relaxation.2.2 (mkPacer FramePacingMode.balanced true 60 60 false)
      12 (by decide)⟩

-- ### Claim C8

theorem renderQueueCatchUp_deferredFree (s : PacerState) :
    (renderQueueCatchUp s).deferredFreeFrame = s.deferredFreeFrame := by
  simp only [renderQueueCatchUp]
  repeat' split
  all_goals simp

/-- Claim C8: in every `Pacer::renderFrame` call the just-rendered frame
is retained in the deferred-free slot afterwards, and the deferred-free
swap frees exactly the frame that occupied the slot before the call (the
frame rendered one cycle earlier) — in particular, when the slot is empty
(the first call), the swap frees nothing. -/
theorem C8_deferred_free (s : PacerState) (f : Frame) :
    (renderFrame s f).deferredFreeFrame = some f
  ∧ (deferredFreeStep s f).deferredFreeFrame = some f
  ∧ (deferredFreeStep s f).freedFrames
      = s.freedFrames ++ s.deferredFreeFrame.toList
  ∧ (s.deferredFreeFrame = none →
      (deferredFreeStep s f).freedFrames = s.freedFrames)
  ∧ (∀ g, s.deferredFreeFrame = some g →
      (deferredFreeStep s f).freedFrames = s.freedFrames ++ [g]) := by
  refine ⟨?_, rfl, rfl, ?_, ?_⟩
  · simp only [renderFrame]
    rw [renderQueueCatchUp_deferredFree]
    rfl
  · intro h
    simp [deferredFreeStep, h]
  · intro g h
    simp [deferredFreeStep, h]

/-- Witness for C8: with frame 7 in the deferred slot, rendering frame 9
frees exactly frame 7 and retains frame 9 in the slot; from the initial
(empty-slot) state the swap frees nothing. -/
theorem C8_witness :
    (renderFrame
        { mkPacer FramePacingMode.balanced true 60 60 false with
            deferredFreeFrame := some 7 } 9).deferredFreeFrame = some 9
  ∧ (deferredFreeStep
        { mkPacer FramePacingMode.balanced true 60 60 false with
            deferredFreeFrame := some 7 } 9).freedFrames
      = ({ mkPacer FramePacingMode.balanced true 60 60 false with
            deferredFreeFrame := some 7 } : PacerState).freedFrames ++ [7]
  ∧ (deferredFreeStep (mkPacer FramePacingMode.balanced true 60 60 false)
        9).freedFrames
      = (mkPacer FramePacingMode.balanced true 60 60 false).freedFrames :=
  ⟨(C8_deferred_free
      { mkPacer FramePacingMode.balanced true 60 60 false with
          deferredFreeFrame := some 7 } 9).1,
   (C8_deferred_free
      { mkPacer FramePacingMode.balanced true 60 60 false with
          deferredFreeFrame := some 7 } 9).2.2.2.2 7 rfl,
   (C8_deferred_free (mkPacer FramePacingMode.balanced true 60 60 false)
      9).2.2.2.1 rfl⟩

-- ### Claim C9

/-- Claim C9: at D3D12 renderer initialization, the decode texture width
and height are each rounded up to the nearest even number, and the frame
texture width and height are further rounded up to the next multiple of
the codec alignment — 16 pixels for the H.264 family, 128 pixels for
every other codec. -/
theorem C9_texture_alignment (width height : Nat) (isH264 : Bool) :
    ((d3d12InitTextureDims width height isH264).textureWidth % 2 = 0
      ∧ width ≤ (d3d12InitTextureDims width height isH264).textureWidth
      ∧ (d3d12InitTextureDims width height isH264).textureWidth ≤ width + 1)
  ∧ ((d3d12InitTextureDims width height isH264).textureHeight % 2 = 0
      ∧ height ≤ (d3d12InitTextureDims width height isH264).textureHeight
      ∧ (d3d12InitTextureDims width height isH264).textureHeight ≤ height + 1)
  ∧ (d3d12InitTextureDims width height isH264).textureAlignment
      = (if isH264 then 16 else 128)
  ∧ ((d3d12InitTextureDims width height isH264).frameWidth
        % (d3d12InitTextureDims width height isH264).textureAlignment = 0
      ∧ (d3d12InitTextureDims width height isH264).textureWidth
          ≤ (d3d12InitTextureDims width height isH264).frameWidth
      ∧ (d3d12InitTextureDims width height isH264).frameWidth
          < (d3d12InitTextureDims width height isH264).textureWidth
            + (d3d12InitTextureDims width height isH264).textureAlignment)
  ∧ ((d3d12InitTextureDims width height isH264).frameHeight
        % (d3d12InitTextureDims width height isH264).textureAlignment = 0
      ∧ (d3d12InitTextureDims width height isH264).textureHeight
          ≤ (d3d12InitTextureDims width height isH264).frameHeight
      ∧ (d3d12InitTextureDims width height isH264).frameHeight
          < (d3d12InitTextureDims width height isH264).textureHeight
            + (d3d12InitTextureDims width height isH264).textureAlignment) := by
  cases isH264 <;>
    refine ⟨⟨?_, ?_, ?_⟩, ⟨?_, ?_, ?_⟩, ?_, ⟨?_, ?_, ?_⟩, ⟨?_, ?_, ?_⟩⟩ <;>
    first
      | (simp only [d3d12InitTextureDims, ffalign]; simp; omega)
      | (simp only [d3d12InitTextureDims, ffalign]; simp)
      | (simp only [d3d12InitTextureDims, ffalign]; omega)
      | (simp only [d3d12InitTextureDims, ffalign])

-- ### Claim C4

theorem enqueueFrameForRendering_renderArrivals (s : PacerState) (f : Frame) :
    (enqueueFrameForRenderingAndUnlock s f).renderArrivals
      = s.renderArrivals ++ [f] := by
  simp only [enqueueFrameForRenderingAndUnlock]
  obtain ⟨_, _, _, _, _, _, _, _, _, _, _, _, _, hra, _⟩ :=
    dropFrameForEnqueue_preserves s s.renderQueue
  simp [hra]

theorem vsyncHistoryPush_queues (s : PacerState) :
    (vsyncHistoryPush s).pacingQueue = s.pacingQueue
  ∧ (vsyncHistoryPush s).renderQueue = s.renderQueue
  ∧ (vsyncHistoryPush s).pacingArrivals = s.pacingArrivals
  ∧ (vsyncHistoryPush s).renderArrivals = s.renderArrivals := by
  simp only [vsyncHistoryPush]
  repeat' split
  all_goals simp

theorem vsyncCatchUp_queues (tgt : Nat) (s : PacerState) :
    (vsyncCatchUp tgt s).pacingQueue = (catchUpLoop tgt s.pacingQueue).2
  ∧ (vsyncCatchUp tgt s).renderQueue = s.renderQueue
  ∧ (vsyncCatchUp tgt s).pacingArrivals = s.pacingArrivals
  ∧ (vsyncCatchUp tgt s).renderArrivals = s.renderArrivals := by
  simp [vsyncCatchUp]

/-- Claim C4: every `handleVsync(t)` call moves at most one frame from the
pacing queue to the render queue; when it waits on the queue-not-empty
condition it does so with a timeout of exactly `max(t, 3) - 3`
milliseconds; and if that wait times out (`arrival = none` with the wait
taken) the call releases no frame to the render queue. -/
theorem C4_handleVsync_release_and_wait (s : PacerState) (t : Nat)
    (arrival : Option Frame) :
    (handleVsync s t arrival).1.renderArrivals.length
      ≤ s.renderArrivals.length + 1
  ∧ vsyncWaitBudgetMs t = max t TIMER_SLACK_MS - TIMER_SLACK_MS
  ∧ ((handleVsync s t arrival).2 = none
      ∨ (handleVsync s t arrival).2 = some (vsyncWaitBudgetMs t))
  ∧ (arrival = none → (handleVsync s t arrival).2 ≠ none →
      (handleVsync s t arrival).1.renderArrivals = s.renderArrivals) := by
  simp only [handleVsync]
  repeat' split
  all_goals simp [enqueueFrameForRendering_renderArrivals, vsyncWaitBudgetMs,
    (vsyncCatchUp_queues _ _).2.2.2, (vsyncHistoryPush_queues _).2.2.2]

/-- Witness for C4: from the initial balanced state (empty pacing queue),
a vsync tick with 10 ms to the next vsync waits (with budget
`max(10,3)-3 = 7`) and, on timeout, releases nothing to the render
queue. -/
theorem C4_witness :
    (handleVsync (mkPacer FramePacingMode.balanced true 60 60 false) 10
        none).1.renderArrivals
      = (mkPacer FramePacingMode.balanced true 60 60 false).renderArrivals :=
  (C4_handleVsync_release_and_wait
      (mkPacer FramePacingMode.balanced true 60 60 false) 10 none).2.2.2
    rfl (by decide)

-- ### Claim C5

/-- Both queues always hold a contiguous suffix of the arrival order of
the frames ever enqueued onto them. -/
def QueuesFollowArrivals (s : PacerState) : Prop :=
    (∃ t, t ++ s.pacingQueue = s.pacingArrivals)
  ∧ (∃ t, t ++ s.renderQueue = s.renderArrivals)

theorem suffix_drop_enqueue {q kept arr : List Frame} (f : Frame)
    (h : ∃ t, t ++ q = arr) (hk : ∃ d, d ++ kept = q) :
    ∃ t, t ++ (kept ++ [f]) = arr ++ [f] := by
  obtain ⟨t, ht⟩ := h
  obtain ⟨d, hd⟩ := hk
  refine ⟨t ++ d, ?_⟩
  rw [← ht, ← hd]
  simp [List.append_assoc]

theorem suffix_drop {q kept arr : List Frame}
    (h : ∃ t, t ++ q = arr) (hk : ∃ d, d ++ kept = q) :
    ∃ t, t ++ kept = arr := by
  obtain ⟨t, ht⟩ := h
  obtain ⟨d, hd⟩ := hk
  exact ⟨t ++ d, by rw [← ht, ← hd]; simp [List.append_assoc]⟩

theorem notifyDecoderBacklog_queues (s : PacerState) (d : Int) :
    (notifyDecoderBacklog s d).pacingQueue = s.pacingQueue
  ∧ (notifyDecoderBacklog s d).renderQueue = s.renderQueue
  ∧ (notifyDecoderBacklog s d).pacingArrivals = s.pacingArrivals
  ∧ (notifyDecoderBacklog s d).renderArrivals = s.renderArrivals := by
  simp only [notifyDecoderBacklog]
  repeat' split
  all_goals simp

theorem renderQueueCatchUp_queues (s : PacerState) :
    (renderQueueCatchUp s).pacingQueue = s.pacingQueue
  ∧ (renderQueueCatchUp s).pacingArrivals = s.pacingArrivals
  ∧ (renderQueueCatchUp s).renderArrivals = s.renderArrivals
  ∧ ∃ d, d ++ (renderQueueCatchUp s).renderQueue = s.renderQueue := by
  simp only [renderQueueCatchUp]
  repeat' split
  all_goals refine ⟨by simp, by simp, by simp, ?_⟩
  all_goals exact ⟨(catchUpLoop _ _).1, by simpa using catchUpLoop_append _ _⟩

/-- `enqueueFrameForRenderingAndUnlock` leaves the pacing side alone and
turns (render queue, render arrivals) from (q, arr) into
(kept ++ [f], arr ++ [f]) with kept a suffix of q. -/
theorem enqueueFrameForRendering_queues (s : PacerState) (f : Frame) :
    (enqueueFrameForRenderingAndUnlock s f).pacingQueue = s.pacingQueue
  ∧ (enqueueFrameForRenderingAndUnlock s f).pacingArrivals = s.pacingArrivals
  ∧ (enqueueFrameForRenderingAndUnlock s f).renderArrivals
      = s.renderArrivals ++ [f]
  ∧ ∃ d, d ++ [] ++ (enqueueFrameForRenderingAndUnlock s f).renderQueue
      = s.renderQueue ++ [f] := by
  obtain ⟨_, _, _, _, _, _, hpq, _, _, _, _, _, hpa, hra, _⟩ :=
    dropFrameForEnqueue_preserves s s.renderQueue
  obtain ⟨d, hd⟩ := dropFrameForEnqueue_kept s s.renderQueue
  refine ⟨by simp [enqueueFrameForRenderingAndUnlock, hpq],
    by simp [enqueueFrameForRenderingAndUnlock, hpa],
    by simp [enqueueFrameForRenderingAndUnlock, hra], ⟨d, ?_⟩⟩
  simp only [enqueueFrameForRenderingAndUnlock, List.append_nil]
  show d ++ ((dropFrameForEnqueue s s.renderQueue).2 ++ [f]) = s.renderQueue ++ [f]
  rw [← List.append_assoc, hd]

theorem enqueueFrameForRendering_followsRender (s : PacerState) (f : Frame)
    (h : ∃ t, t ++ s.renderQueue = s.renderArrivals) :
    ∃ t, t ++ (enqueueFrameForRenderingAndUnlock s f).renderQueue
      = (enqueueFrameForRenderingAndUnlock s f).renderArrivals := by
  obtain ⟨_, _, hra, d, hd⟩ := enqueueFrameForRendering_queues s f
  rw [hra]
  obtain ⟨t, ht⟩ := h
  refine ⟨t ++ d, ?_⟩
  rw [← ht]
  simp only [List.append_nil] at hd
  calc (t ++ d) ++ (enqueueFrameForRenderingAndUnlock s f).renderQueue
      = t ++ (d ++ (enqueueFrameForRenderingAndUnlock s f).renderQueue) := by
        simp [List.append_assoc]
    _ = t ++ (s.renderQueue ++ [f]) := by rw [hd]
    _ = (t ++ s.renderQueue) ++ [f] := by simp [List.append_assoc]

theorem submitFrame_follows (s : PacerState) (f : Frame)
    (h : QueuesFollowArrivals s) : QueuesFollowArrivals (submitFrame s f) := by
  obtain ⟨hp, hr⟩ := h
  simp only [submitFrame]
  split
  · -- vsync branch: pacing queue gets (kept ++ [f]); render side untouched.
    obtain ⟨_, _, _, hpq1, hrq1, hpa1, hra1⟩ := relaxationTick_preserves s
    obtain ⟨_, _, _, _, _, _, hpq2, hrq2, _, _, _, _, hpa2, hra2, _⟩ :=
      dropFrameForEnqueue_preserves (relaxationTick s) (relaxationTick s).pacingQueue
    obtain ⟨d, hd⟩ :=
      dropFrameForEnqueue_kept (relaxationTick s) (relaxationTick s).pacingQueue
    constructor
    · show ∃ u, u ++ ((dropFrameForEnqueue (relaxationTick s)
          (relaxationTick s).pacingQueue).2 ++ [f])
        = (dropFrameForEnqueue (relaxationTick s)
            (relaxationTick s).pacingQueue).1.pacingArrivals ++ [f]
      rw [hpa2, hpa1]
      exact suffix_drop_enqueue f hp ⟨d, by rw [hd, hpq1]⟩
    · show ∃ u, u ++ (dropFrameForEnqueue (relaxationTick s)
          (relaxationTick s).pacingQueue).1.renderQueue
        = (dropFrameForEnqueue (relaxationTick s)
            (relaxationTick s).pacingQueue).1.renderArrivals
      rw [hrq2, hrq1, hra2, hra1]
      exact hr
  · -- no-vsync branch: pacing untouched; render side enqueues f.
    obtain ⟨hpq, hpa, _, _⟩ := enqueueFrameForRendering_queues s f
    exact ⟨by rw [hpq, hpa]; exact hp,
      enqueueFrameForRendering_followsRender s f hr⟩

theorem handleVsync_follows (s : PacerState) (t : Nat) (a : Option Frame)
    (h : QueuesFollowArrivals s) : QueuesFollowArrivals (handleVsync s t a).1 := by
  obtain ⟨hp, hr⟩ := h
  obtain ⟨hpq1, hrq1, hpa1, hra1⟩ := vsyncHistoryPush_queues s
  obtain ⟨hpq2, hrq2, hpa2, hra2⟩ :=
    vsyncCatchUp_queues (vsyncFrameDropTarget s) (vsyncHistoryPush s)
  set s1 := vsyncCatchUp (vsyncFrameDropTarget s) (vsyncHistoryPush s) with hs1
  have hp1 : ∃ u, u ++ s1.pacingQueue = s1.pacingArrivals := by
    rw [hpq2, hpa2, hpa1, hpq1]
    exact suffix_drop hp
      ⟨(catchUpLoop (vsyncFrameDropTarget s) s.pacingQueue).1,
        catchUpLoop_append _ _⟩
  have hr1 : ∃ u, u ++ s1.renderQueue = s1.renderArrivals := by
    rw [hrq2, hra2, hrq1, hra1]
    exact hr
  rcases hq : s1.pacingQueue with _ | ⟨g, rest⟩
  · cases a with
    | none =>
      have hres : handleVsync s t none = (s1, some (vsyncWaitBudgetMs t)) := by
        simp [handleVsync, ← hs1, hq]
      rw [hres]
      exact ⟨hp1, hr1⟩
    | some f =>
      have hres : handleVsync s t (some f)
          = (enqueueFrameForRenderingAndUnlock
              { s1 with pacingArrivals := s1.pacingArrivals ++ [f] } f,
             some (vsyncWaitBudgetMs t)) := by
        simp [handleVsync, ← hs1, hq]
      rw [hres]
      obtain ⟨hpq3, hpa3, _, _⟩ := enqueueFrameForRendering_queues
        { s1 with pacingArrivals := s1.pacingArrivals ++ [f] } f
      constructor
      · rw [hpq3, hpa3]
        show ∃ u, u ++ s1.pacingQueue = s1.pacingArrivals ++ [f]
        rw [hq]
        exact ⟨s1.pacingArrivals ++ [f], by simp⟩
      · exact enqueueFrameForRendering_followsRender
          { s1 with pacingArrivals := s1.pacingArrivals ++ [f] } f hr1
  · have hres : handleVsync s t a
        = (enqueueFrameForRenderingAndUnlock { s1 with pacingQueue := rest } g,
           none) := by
      cases a <;> simp [handleVsync, ← hs1, hq]
    rw [hres]
    obtain ⟨hpq3, hpa3, _, _⟩ := enqueueFrameForRendering_queues
      { s1 with pacingQueue := rest } g
    constructor
    · rw [hpq3, hpa3]
      show ∃ u, u ++ rest = s1.pacingArrivals
      obtain ⟨u, hu⟩ := hp1
      rw [hq] at hu
      exact ⟨u ++ [g], by rw [← hu]; simp⟩
    · exact enqueueFrameForRendering_followsRender
        { s1 with pacingQueue := rest } g hr1


theorem renderFrame_follows (x : PacerState) (f : Frame)
    (hp : ∃ u, u ++ x.pacingQueue = x.pacingArrivals)
    (hr : ∃ u, u ++ (f :: x.renderQueue) = x.renderArrivals) :
    QueuesFollowArrivals (renderFrame x f) := by
  simp only [renderFrame]
  obtain ⟨cpq, cpa, cra, d, hd⟩ := renderQueueCatchUp_queues
    (deferredFreeStep { x with renderedFrames := x.renderedFrames + 1 } f)
  constructor
  · rw [cpq, cpa]
    exact hp
  · rw [cra]
    obtain ⟨u, hu⟩ := hr
    refine ⟨u ++ ([f] ++ d), ?_⟩
    have hd' : d ++ (renderQueueCatchUp (deferredFreeStep
        { x with renderedFrames := x.renderedFrames + 1 } f)).renderQueue
        = x.renderQueue := hd
    show (u ++ ([f] ++ d)) ++ (renderQueueCatchUp (deferredFreeStep
        { x with renderedFrames := x.renderedFrames + 1 } f)).renderQueue
      = x.renderArrivals
    conv_rhs => rw [← hu]
    simp only [List.append_assoc]
    rw [hd']
    simp

theorem renderThreadStep_follows (s : PacerState)
    (h : QueuesFollowArrivals s) : QueuesFollowArrivals (renderThreadStep s) := by
  obtain ⟨hp, hr⟩ := h
  rcases hq : s.renderQueue with _ | ⟨f, rest⟩
  · simpa [renderThreadStep, hq] using ⟨hp, hr⟩
  · simp only [renderThreadStep, hq]
    apply renderFrame_follows
    · exact hp
    · show ∃ u, u ++ (f :: rest) = s.renderArrivals
      obtain ⟨u, hu⟩ := hr
      exact ⟨u, by rw [← hq]; exact hu⟩

theorem pacerStep_follows (s : PacerState) (op : PacerOp)
    (h : QueuesFollowArrivals s) : QueuesFollowArrivals (pacerStep s op) := by
  cases op with
  | submit f => exact submitFrame_follows s f h
  | notifyBacklog d =>
    obtain ⟨hp, hr⟩ := h
    obtain ⟨hpq, hrq, hpa, hra⟩ := notifyDecoderBacklog_queues s d
    exact ⟨by show ∃ u, u ++ (notifyDecoderBacklog s d).pacingQueue
                  = (notifyDecoderBacklog s d).pacingArrivals
              rw [hpq, hpa]; exact hp,
           by show ∃ u, u ++ (notifyDecoderBacklog s d).renderQueue
                  = (notifyDecoderBacklog s d).renderArrivals
              rw [hrq, hra]; exact hr⟩
  | vsyncTick t a => exact handleVsync_follows s t a h
  | renderStep => exact renderThreadStep_follows s h

theorem runPacer_follows (ops : List PacerOp) (s : PacerState)
    (h : QueuesFollowArrivals s) : QueuesFollowArrivals (runPacer s ops) := by
  induction ops generalizing s with
  | nil => exact h
  | cons op rest ih => exact ih (pacerStep s op) (pacerStep_follows s op h)

/-- Claim C5: at every reachable state (any event sequence from any
initial configuration), each of the pacing queue and the render queue is
a contiguous suffix of the arrival order of the frames ever enqueued
onto it — FIFO order is preserved; and every drop loop (enqueue
overflow, vsync catch-up, post-render catch-up — the latter two share
`catchUpLoop`) removes frames from the front of the queue, i.e. the
dropped frames are exactly an initial segment of the queue, oldest
first. -/
theorem C5_fifo_oldest_first :
    (∀ (mode : FramePacingMode) (vs nb : Bool) (fps dfps : Nat)
        (ops : List PacerOp),
        (∃ u, u ++ (runPacer (mkPacer mode vs fps dfps nb) ops).pacingQueue
            = (runPacer (mkPacer mode vs fps dfps nb) ops).pacingArrivals)
      ∧ (∃ u, u ++ (runPacer (mkPacer mode vs fps dfps nb) ops).renderQueue
            = (runPacer (mkPacer mode vs fps dfps nb) ops).renderArrivals))
  ∧ (∀ (m : Nat) (q : List Frame),
      (dropOverflowLoop m q).1 ++ (dropOverflowLoop m q).2 = q)
  ∧ (∀ (tgt : Nat) (q : List Frame),
      (catchUpLoop tgt q).1 ++ (catchUpLoop tgt q).2 = q) := by
  refine ⟨?_, dropOverflowLoop_append, catchUpLoop_append⟩
  intro mode vs nb fps dfps ops
  exact runPacer_follows ops (mkPacer mode vs fps dfps nb) ⟨⟨[], rfl⟩, ⟨[], rfl⟩⟩
